import Mathlib

/-!
Shallow embedding of the `snippet-uiautomator` Python package
(`snippet_uiautomator/…`) and proofs about its documented behaviour.

Conventions used throughout:
* Python `dict`s are association lists in insertion order; `dict[k] = v`
  replaces in place when the key is present and appends otherwise.
* A Python method that mutates `self` and may raise is embedded as a
  function returning `Option Err × State`: on `some err` the returned
  state is the state at the moment of the raise.
* External effects (adb commands, RPC sends, snippet load/unload) are
  recorded as values of explicit action types, so that theorems can speak
  about which side effects a code path performs and in which order.
-/

namespace SnippetUiAutomator

/-! ## `byselector.py` — the nested-dictionary selector builder -/

/-- A value stored in a selector dictionary: `bool`, `int`, `str`, or a
nested sub-selector dictionary (`SelectorType` / `NestedSelectorType` in
`byselector.py`). -/
inductive SelVal where
  | b (x : Bool)
  | i (x : Int)
  | s (x : String)
  | dict (entries : List (String × SelVal))

/-- A Python `dict` of selector entries, in insertion order. -/
abbrev Dict := List (String × SelVal)

/-- Python `d[k] = v`: replace in place when `k` is present, else append. -/
def setKey (d : Dict) (k : String) (v : SelVal) : Dict :=
  match d with
  | [] => [(k, v)]
  | (k', v') :: rest => if k' = k then (k, v) :: rest else (k', v') :: setKey rest k v

/-- Python `d.get(k)`. -/
def getKey (d : Dict) (k : String) : Option SelVal :=
  match d with
  | [] => none
  | (k', v') :: rest => if k' = k then some v' else getKey rest k

/-- Follow a path of keys through nested dictionaries. -/
def getDictAt (d : Dict) : List String → Option Dict
  | [] => some d
  | q :: qs =>
    match getKey d q with
    | some (SelVal.dict sub) => getDictAt sub qs
    | _ => none

/-- Replace the whole sub-dictionary found at a path. -/
def replaceAt (d : Dict) : List String → Dict → Dict
  | [], nd => nd
  | q :: qs, nd =>
    match getKey d q with
    | some (SelVal.dict sub) => setKey d q (SelVal.dict (replaceAt sub qs nd))
    | _ => d

/-- Set one key of the sub-dictionary found at a path: this is the effect of
`self._bottom[name] = dict(kwargs)` where `self._bottom` aliases the
dictionary reached from `self._selector` along the path. -/
def setKeyAt (d : Dict) : List String → String → SelVal → Dict
  | [], n, v => setKey d n v
  | q :: qs, n, v =>
    match getKey d q with
    | some (SelVal.dict sub) => setKey d q (SelVal.dict (setKeyAt sub qs n v))
    | _ => d

/-- `BySelector.SUBSELECTOR` from `byselector.py`. -/
def SUBSELECTOR : List String :=
  ["child", "parent", "sibling", "bottom", "left", "right", "top"]

/-- `byselector.SelectorError`, split by the two raise sites of `append`. -/
inductive SelectorError where
  | unexpectedSelectorType (name : String)
  | basicSelectorContainsSub
deriving DecidableEq, Repr

/-- State of a `BySelector`: `selector` embeds `self._selector` and
`bottomPath` is the key path along which `self._bottom` aliases into
`self._selector` (empty right after `__init__`, where `_bottom` is
`_selector` itself). -/
structure BySelector where
  selector : Dict
  bottomPath : List String

/-- `BySelector.__init__(**kwargs)`. -/
def BySelector.init (kwargs : Dict) : BySelector := ⟨kwargs, []⟩

/-- `BySelector.to_dict`. -/
def BySelector.to_dict (b : BySelector) : Dict := b.selector

/-- `BySelector.is_nested`. -/
def BySelector.is_nested (b : BySelector) : Bool :=
  b.selector.any fun kv =>
    match kv.2 with
    | SelVal.dict _ => true
    | _ => false

/-- `BySelector.append(name, **kwargs)`: raises `SelectorError` when `name`
is not a sub-selector key or some keyword key is itself a sub-selector key
(both checks happen before any mutation); otherwise writes `dict(kwargs)`
under `name` at the bottom dictionary and moves the bottom there. -/
def BySelector.append (b : BySelector) (name : String) (kwargs : Dict) :
    Option SelectorError × BySelector :=
  if name ∉ SUBSELECTOR then
    (some (SelectorError.unexpectedSelectorType name), b)
  else if ∃ kv ∈ kwargs, kv.1 ∈ SUBSELECTOR then
    (some SelectorError.basicSelectorContainsSub, b)
  else
    (none,
      ⟨setKeyAt b.selector b.bottomPath name (SelVal.dict kwargs),
        b.bottomPath ++ [name]⟩)

/-- Run a sequence of `append` calls; an exception aborts the sequence. -/
def appendAll (b : BySelector) : List (String × Dict) → Option SelectorError × BySelector
  | [] => (none, b)
  | (n, k) :: rest =>
    match b.append n k with
    | (some e, b') => (some e, b')
    | (none, b') => appendAll b' rest

/-- Written from the words of the specification: the nested dictionary in
which each appended sub-selector is nested exactly one level deeper than
the previous one, in append order. -/
def nestSpec (base : Dict) : List (String × Dict) → Dict
  | [] => base
  | (n, k) :: rest => setKey base n (SelVal.dict (nestSpec k rest))

/-- The success condition of one `append` call: the name is a sub-selector
key and no keyword key is one. -/
def validAppend (n : String) (k : Dict) : Prop :=
  n ∈ SUBSELECTOR ∧ ∀ kv ∈ k, kv.1 ∉ SUBSELECTOR

instance (n : String) (k : Dict) : Decidable (validAppend n k) := by
  unfold validAppend
  infer_instance

/-! ## `snippet_client.py` — reconnect-on-socket-error retry -/

/-- An exception escaping the parent class's `send_rpc_request`, as the
`except (ProtocolError, Error)` clause of `SnippetClient.send_rpc_request`
classifies it: a `mobly.snippet.errors.ProtocolError`, any other
`mobly.snippet.errors.Error` (carrying its `str(e)`), or an exception that
is no snippet error at all and is therefore not caught. -/
inductive PyExc where
  | protocolError (msg : String)
  | snippetError (msg : String)
  | otherExc (msg : String)

/-- Python `sub in s` on strings. -/
def strContains (s sub : String) : Prop := sub.data <:+: s.data

instance (s sub : String) : Decidable (strContains s sub) :=
  List.decidableInfix _ _

/-- The parent class's `send_rpc_request` is external (mobly); it is an
oracle indexed by attempt number — the retry runs against a freshly
restarted connection, so it may answer differently. -/
abbrev ParentRpc := Nat → Except PyExc String

/-- What one call of `SnippetClient.send_rpc_request` did: the value
returned or exception propagated, whether `_restart_snippet_connection`
ran, and how many parent calls were made. -/
structure SendRpcResult where
  result : Except PyExc String
  restarted : Bool
  attempts : Nat

/-- `SnippetClient.send_rpc_request` (`snippet_client.py` lines 58–71):
try the parent call; on `ProtocolError`, or on a snippet `Error` whose
string contains `'socket error'`, restart the snippet connection and retry
the parent call once; re-raise any other snippet `Error`; exceptions that
are no snippet errors are not caught at all. -/
def send_rpc_request (parent : ParentRpc) : SendRpcResult :=
  match parent 0 with
  | .ok v => ⟨.ok v, false, 1⟩
  | .error e =>
    match e with
    | .protocolError _ => ⟨parent 1, true, 2⟩
    | .snippetError m =>
      if ¬ strContains m "socket error" then ⟨.error (.snippetError m), false, 1⟩
      else ⟨parent 1, true, 2⟩
    | .otherExc m => ⟨.error (.otherExc m), false, 1⟩

/-- Python's default `str.strip` / whitespace test. -/
def isSpaceChar (c : Char) : Bool :=
  c = ' ' || c = '\t' || c = '\n' || c = '\r' || c = '\x0b' || c = '\x0c'

/-- Python `s.strip()` on a character list. -/
def stripChars (l : List Char) : List Char :=
  ((l.dropWhile isSpaceChar).reverse.dropWhile isSpaceChar).reverse

/-- Python `s.strip()`. -/
def pyStrip (s : String) : String := ⟨stripChars s.data⟩

/-- If `sep` is a prefix of `l`, return the remainder of `l`. -/
def matchSep : List Char → List Char → Option (List Char)
  | [], l => some l
  | _ :: _, [] => none
  | a :: as, b :: bs => if a = b then matchSep as bs else none

/-- Left-to-right non-overlapping split on a non-empty separator, exactly
Python `s.split(sep)`; the fuel (instantiated to the string length, enough
for one step per character) only makes the recursion structural. -/
def splitOnAuxF (sep : List Char) : Nat → List Char → List (List Char)
  | _, [] => [[]]
  | 0, l => [l]
  | fuel + 1, c :: rest =>
    match matchSep sep (c :: rest) with
    | some tail => [] :: splitOnAuxF sep fuel tail
    | none =>
      match splitOnAuxF sep fuel rest with
      | [] => [[c]]
      | seg :: segs => (c :: seg) :: segs

/-- Python `s.split(sep)` for a non-empty separator. -/
def pySplit (s sep : String) : List String :=
  (splitOnAuxF sep.data s.data.length s.data).map (fun l => ⟨l⟩)

/-- Decimal digit run (accumulator form) for Python `int()`. -/
def parseDigitsAcc : List Char → Nat → Option Nat
  | [], acc => some acc
  | c :: cs, acc =>
    if '0' ≤ c ∧ c ≤ '9' then
      parseDigitsAcc cs (acc * 10 + (c.toNat - '0'.toNat))
    else none

/-- A non-empty decimal digit run. -/
def parsePyNat : List Char → Option Nat
  | [] => none
  | l => parseDigitsAcc l 0

/-- Python `int(s)` as used on adb forward-list tokens: surrounding
whitespace ignored, then an optionally signed decimal number; `none` when
`int()` would raise `ValueError`. -/
def pyInt (s : String) : Option Int :=
  match stripChars s.data with
  | '-' :: rest => (parsePyNat rest).map (fun n => -(n : Int))
  | '+' :: rest => (parsePyNat rest).map (fun n => (n : Int))
  | l => (parsePyNat l).map (fun n => (n : Int))

/-- Loop body of `_list_occupied_adb_ports`: for each line, split on
`' tcp:'`; skip the line unless that yields exactly three tokens, else
parse `tokens[1]` as the host port (`int()` raising on a bad token). -/
def listOccupiedAdbPortsGo : List String → Except String (List Int)
  | [] => .ok []
  | line :: rest =>
    let tokens := pySplit line " tcp:"
    if tokens.length ≠ 3 then listOccupiedAdbPortsGo rest
    else
      match pyInt (tokens.getD 1 "") with
      | none => .error line
      | some p =>
        match listOccupiedAdbPortsGo rest with
        | .error e => .error e
        | .ok ps => .ok (p :: ps)

/-- `_list_occupied_adb_ports` (`snippet_client.py` lines 24–34), taking
the decoded output of `adb forward --list`. -/
def listOccupiedAdbPorts (out : String) : Except String (List Int) :=
  listOccupiedAdbPortsGo (pySplit (pyStrip out) "\n")

/-- One externally visible step of `_restart_snippet_connection`. -/
inductive RestartAction where
  | closeConnection
  | shell (args : List String)
  | startServer
  | makeConnection
deriving DecidableEq, Repr

/-- `SnippetClient._restart_snippet_connection` (`snippet_client.py` lines
50–56), as the ordered list of external steps it performs, given the
client's host port, the decoded `adb forward --list` output, the user
arguments and the snippet package. -/
def restart_snippet_connection (hostPort : Int) (forwardListOut : String)
    (userArgs : List String) (package : String) :
    Except String (List RestartAction) :=
  match listOccupiedAdbPorts forwardListOut with
  | .error e => .error e
  | .ok ports =>
    .ok ((if hostPort ∈ ports then [RestartAction.closeConnection] else [])
      ++ [RestartAction.shell (["pm", "clear"] ++ userArgs ++ [package]),
          RestartAction.startServer, RestartAction.makeConnection])

/-! ## `utils.py` — time units -/

/-- Python `int(q)` on a real number: truncation toward zero. -/
def intTrunc (q : ℚ) : Int := if q < 0 then -⌊-q⌋ else ⌊q⌋

/-- `utils.TimeUnit = Union[float, int, datetime.timedelta]`; float values
and timedelta durations (in seconds) are modelled as rationals. -/
inductive TimeUnit where
  | int (n : Int)
  | float (q : ℚ)
  | timedelta (seconds : ℚ)

/-- `utils.covert_to_millisecond`: `int(td.total_seconds() * 1_000)` for a
timedelta, `int(timeout)` otherwise. -/
def covert_to_millisecond : TimeUnit → Int
  | .timedelta secs => intTrunc (secs * 1000)
  | .int n => n
  | .float q => intTrunc q

/-! ## `uiobject2.py` — RPC-forwarding wrappers -/

/-- An argument of a forwarded RPC call. -/
inductive RpcArg where
  | dict (d : Dict)
  | int (n : Int)
  | optInt (o : Option Int)

/-- One RPC call: snippet method name and positional arguments. -/
structure RpcCall where
  method : String
  args : List RpcArg

/-- `_Click.__call__(timeout)` (`uiobject2.py` lines 43–55), with the RPC
channel as an oracle `rpc`: returns the result of the single `clickObj`
call it makes, together with the list of calls made. -/
def click_call (rpc : RpcCall → Bool) (selector : BySelector)
    (timeout : Option TimeUnit) : Bool × List RpcCall :=
  match timeout with
  | none =>
    let c : RpcCall := ⟨"clickObj", [RpcArg.dict selector.to_dict]⟩
    (rpc c, [c])
  | some t =>
    let c : RpcCall := ⟨"clickObj",
      [RpcArg.dict selector.to_dict, RpcArg.int (covert_to_millisecond t)]⟩
    (rpc c, [c])

/-- The `ApiError` message raised by `_Drag.to`. -/
def dragErrMsg : String := "Drag to object and drag to coordinates cannot be mixed"

/-- `_Drag.to(x, y, speed, **kwargs)` (`uiobject2.py` lines 107–139): a
`dragObjToObj` RPC when both coordinates are absent and search criteria are
given, a `dragObj` RPC when both coordinates are present and no criteria
are given, and `ApiError` (with no RPC call) otherwise. -/
def drag_to (rpc : RpcCall → Bool) (selector : BySelector)
    (x y speed : Option Int) (kwargs : Dict) :
    Except String Bool × List RpcCall :=
  if x = none ∧ y = none ∧ ¬ kwargs.isEmpty then
    let c : RpcCall := ⟨"dragObjToObj",
      [RpcArg.dict selector.to_dict,
       RpcArg.dict (BySelector.init kwargs).to_dict, RpcArg.optInt speed]⟩
    (Except.ok (rpc c), [c])
  else if h : x ≠ none ∧ y ≠ none ∧ kwargs.isEmpty then
    let c : RpcCall := ⟨"dragObj",
      [RpcArg.dict selector.to_dict,
       RpcArg.int (x.get (Option.ne_none_iff_isSome.mp h.1)),
       RpcArg.int (y.get (Option.ne_none_iff_isSome.mp h.2.1)),
       RpcArg.optInt speed]⟩
    (Except.ok (rpc c), [c])
  else
    (Except.error dragErrMsg, [])

/-! ## `configurator.py` -/

/-- `configurator.Flag` (IntEnum). -/
inductive Flag where
  | FLAG_DONT_SUPPRESS_ACCESSIBILITY_SERVICES
  | FLAG_DONT_USE_ACCESSIBILITY
deriving DecidableEq, Repr

/-- The integer value of a `Flag`. -/
def Flag.val : Flag → Nat
  | .FLAG_DONT_SUPPRESS_ACCESSIBILITY_SERVICES => 1
  | .FLAG_DONT_USE_ACCESSIBILITY => 2

/-- `configurator.ToolType` (IntEnum). -/
inductive ToolType where
  | TOOL_TYPE_UNKNOWN
  | TOOL_TYPE_FINGER
  | TOOL_TYPE_STYLUS
  | TOOL_TYPE_MOUSE
  | TOOL_TYPE_ERASER
deriving DecidableEq, Repr

/-- The integer value of a `ToolType`. -/
def ToolType.val : ToolType → Nat
  | .TOOL_TYPE_UNKNOWN => 0
  | .TOOL_TYPE_FINGER => 1
  | .TOOL_TYPE_STYLUS => 2
  | .TOOL_TYPE_MOUSE => 3
  | .TOOL_TYPE_ERASER => 4

/-- `functools.reduce(lambda x, y: x | y, flags)`: bitwise OR with the
first flag as the initial value (defined as 0 on the empty list, which the
code never reaches). -/
def orFlags : List Flag → Nat
  | [] => 0
  | f :: fs => fs.foldl (fun a g => a ||| g.val) f.val

/-- `configurator.Timeout`: each field a timedelta in seconds, `none` for
Python `None`; `wait_for_selector` defaults to
`constants.DEFAULT_WAIT_FOR_SELECTOR_TIMEOUT = timedelta(seconds=0)` (the
code guards it with `is not None` even though its annotation is not
Optional, so it is modelled as an Option too). -/
structure Timeout where
  key_injection_delay : Option ℚ := none
  action_acknowledgment : Option ℚ := none
  scroll_acknowledgment : Option ℚ := none
  wait_for_idle : Option ℚ := none
  wait_for_selector : Option ℚ := some 0

/-- `configurator.Configurator`. -/
structure Configurator where
  flags : List Flag := []
  timeout : Timeout := {}
  tool_type : Option ToolType := none

/-- The `config['toolType'] = …` insertion of `to_dict`, guarded by
`tool_type is not None`. -/
def toolTypeEntries (o : Option ToolType) : List (String × Int) :=
  match o with
  | some t => [("toolType", (t.val : Int))]
  | none => []

/-- The `config['uiAutomationFlags'] = …` insertion of `to_dict`:
`flags[0].value` when there is exactly one flag, `reduce(|)` when there are
more, nothing when there are none. -/
def flagsEntries (l : List Flag) : List (String × Int) :=
  match l with
  | [] => []
  | [f] => [("uiAutomationFlags", (f.val : Int))]
  | f :: g :: rest => [("uiAutomationFlags", (orFlags (f :: g :: rest) : Int))]

/-- A `config[key] = covert_to_millisecond(td)` insertion guarded by
`td is not None`. -/
def optEntry (key : String) (o : Option ℚ) : List (String × Int) :=
  match o with
  | some q => [(key, covert_to_millisecond (TimeUnit.timedelta q))]
  | none => []

/-- `Configurator.to_dict` (`configurator.py` lines 112–147), building the
`ConfiguratorInfo` mapping in the code's insertion order. -/
def Configurator.to_dict (c : Configurator) : List (String × Int) :=
  toolTypeEntries c.tool_type
  ++ flagsEntries c.flags
  ++ optEntry "actionAcknowledgmentTimeout" c.timeout.action_acknowledgment
  ++ optEntry "keyInjectionDelay" c.timeout.key_injection_delay
  ++ optEntry "scrollAcknowledgmentTimeout" c.timeout.scroll_acknowledgment
  ++ optEntry "waitForIdleTimeout" c.timeout.wait_for_idle
  ++ optEntry "waitForSelectorTimeout" c.timeout.wait_for_selector

/-- The specification's reading of the flags value: the bitwise OR of all
flag values. -/
def orFlagsSpec (l : List Flag) : Nat :=
  l.foldl (fun a g => a ||| g.val) 0

/-! ## `uiautomator.py` — the `UiAutomatorService` lifecycle

The device, its services and the adb package list are external; they are
abstracted into Boolean state fields read and written exactly where the
Python code reads and writes the corresponding device attributes, plus an
oracle (`ServiceEnv`) for the outcomes of the external mobly calls. -/

/-- The configuration fields of `Snippet`/`UiAutomatorConfigs` the claims
depend on. `skip_installing` is mutable state (start sets it), so it lives
in `ServiceState`. -/
structure SnippetCfg where
  package_name : Option String
  file_path : String

/-- Abstracted device/service state:
`hasPublicAttr` — `hasattr(device, ui_public_service_name)`;
`hasSnippetsManager` — `hasattr(device.services, 'snippets')`;
`clientLoaded` — `services.snippets.get_snippet_client(service) is not None`;
`apkInstalled` — the `pm list package` grep of `_is_apk_installed`;
`skip_installing` — `configs.skip_installing`. -/
structure ServiceState where
  hasPublicAttr : Bool
  hasSnippetsManager : Bool
  clientLoaded : Bool
  apkInstalled : Bool
  skip_installing : Bool
deriving DecidableEq, Repr

/-- Outcome of the external `device.load_snippet` call. -/
inductive LoadOutcome where
  | success
  | serverStartProtocolError
  | otherFailure
deriving DecidableEq, Repr

/-- Oracle for the external mobly calls made during start/stop. -/
structure ServiceEnv where
  loadOutcome : LoadOutcome
  uiaRegisteredInLogcat : Bool
  unloadAdbStderr : Option String

/-- Errors raised by the service lifecycle methods. -/
inductive ServiceError where
  | configurationError (msg : String)
  | uiAutomationServiceAlreadyRegistered
  | serverStartProtocolError
  | loadFailure
  | adbError (stderr : String)
deriving DecidableEq, Repr

/-- Externally visible steps of the lifecycle methods. -/
inductive ServiceAction where
  | adbUninstall (pkg : Option String)
  | adbInstall (args : List String)
  | loadSnippet
  | setConfigurator
  | setPublicAttr
  | unloadSnippet
  | delPublicAttr
deriving DecidableEq, Repr

/-- Python `str(x)` on an optional string (for `format`). -/
def fmtOptStr (o : Option String) : String := o.getD "None"

/-- `errors.ERROR_WHEN_APK_IS_NOT_INSTALLED.format(package_name=…)`. -/
def errWhenApkNotInstalled (pkg : Option String) : String :=
  "`skip_installing` is True but package " ++ fmtOptStr pkg ++ " is not installed"

/-- `errors.ERROR_WHEN_PACKAGE_NAME_MISSING`. -/
def errWhenPackageNameMissing : String :=
  "Need to provide package name to configuration for launching snippet"

/-- `UiAutomatorService.is_alive` (`uiautomator.py` lines 184–191). -/
def is_alive (s : ServiceState) : Bool :=
  s.hasPublicAttr && s.hasSnippetsManager && s.clientLoaded

/-- `UiAutomatorService._install_apk` (`uiautomator.py` lines 118–131):
with `skip_installing`, only check installation (raising
`ConfigurationError` when the APK is absent, before any adb command);
otherwise uninstall first when already installed (signature may differ),
then install with `-g`. -/
def install_apk (cfg : SnippetCfg) (s : ServiceState) :
    Except ServiceError (ServiceState × List ServiceAction) :=
  if s.skip_installing then
    if ¬ s.apkInstalled then
      .error (.configurationError (errWhenApkNotInstalled cfg.package_name))
    else
      .ok (s, [])
  else
    if s.apkInstalled then
      .ok ({ s with apkInstalled := true },
        [.adbUninstall cfg.package_name, .adbInstall ["-g", cfg.file_path]])
    else
      .ok ({ s with apkInstalled := true }, [.adbInstall ["-g", cfg.file_path]])

/-- `UiAutomatorService._load_snippet` (`uiautomator.py` lines 133–155):
return if the snippet client is already loaded; raise when the package name
is missing; otherwise `device.load_snippet`, mapping a
`ServerStartProtocolError` to `UiAutomationServiceAlreadyRegisteredError`
when logcat shows the uiautomation service already registered. On success
the snippet client (and mobly's snippets manager) exist. -/
def load_snippet (env : ServiceEnv) (cfg : SnippetCfg) (s : ServiceState) :
    Except ServiceError (ServiceState × List ServiceAction) :=
  if s.clientLoaded then
    .ok (s, [])
  else if cfg.package_name = none then
    .error (.configurationError errWhenPackageNameMissing)
  else
    match env.loadOutcome with
    | .success =>
      .ok ({ s with clientLoaded := true, hasSnippetsManager := true },
        [.loadSnippet])
    | .serverStartProtocolError =>
      if env.uiaRegisteredInLogcat then
        .error .uiAutomationServiceAlreadyRegistered
      else .error .serverStartProtocolError
    | .otherFailure => .error .loadFailure

/-- `UiAutomatorService._initial_uidevice` (`uiautomator.py` lines
157–165): `setConfigurator` RPC, then attach the `UiDevice` wrapper under
the public service name. -/
def initial_uidevice (s : ServiceState) : ServiceState × List ServiceAction :=
  ({ s with hasPublicAttr := true }, [.setConfigurator, .setPublicAttr])

/-- `UiAutomatorService.start` (`uiautomator.py` lines 193–200). The
returned list is the full trace of external steps performed, also on the
error paths. -/
def service_start (env : ServiceEnv) (cfg : SnippetCfg) (s : ServiceState) :
    Except ServiceError ServiceState × List ServiceAction :=
  if is_alive s then
    (.ok s, [])
  else
    match install_apk cfg s with
    | .error e => (.error e, [])
    | .ok (s1, t1) =>
      match load_snippet env cfg s1 with
      | .error e => (.error e, t1)
      | .ok (s2, t2) =>
        let r := initial_uidevice s2
        (.ok { r.1 with skip_installing := true }, t1 ++ t2 ++ r.2)

/-- `re.fullmatch(errors.REGEX_TCP_PORT_NOT_FOUND, stderr) is not None`.
The pattern is `adb: error: listener 'tcp:(\d+)' not found\n|$`, so a full
match is either the whole literal message with a non-empty digit run, or —
through the `$` alternative — the empty string. -/
def tcpPortNotFoundFullmatch (stderr : String) : Bool :=
  if stderr.data = [] then true
  else
    match matchSep ("adb: error: listener 'tcp:".data) stderr.data with
    | none => false
    | some rest =>
      decide (rest.takeWhile Char.isDigit ≠ []) &&
        decide (rest.dropWhile Char.isDigit = ("' not found\n").data)

/-- Shared tail of `stop`: delete the public UiDevice attribute exactly
when it is present (`uiautomator.py` lines 224–230). -/
def stopDelattr (s : ServiceState) (tr : List ServiceAction) :
    Except ServiceError ServiceState × List ServiceAction :=
  if s.hasPublicAttr then
    (.ok { s with hasPublicAttr := false }, tr ++ [.delPublicAttr])
  else (.ok s, tr)

/-- `UiAutomatorService.stop` (`uiautomator.py` lines 202–230): return
unchanged when not alive; return without unloading when the package is no
longer installed; otherwise unload the snippet, swallowing an `AdbError`
whose stderr fully matches the tcp-port-not-found pattern and re-raising
any other `AdbError`; finally delete the public attribute iff present. On
a successful unload the snippet client is gone; when the unload raised,
the abstract client state is left as the oracle reported it. -/
def service_stop (env : ServiceEnv) (s : ServiceState) :
    Except ServiceError ServiceState × List ServiceAction :=
  if ¬ is_alive s then
    (.ok s, [])
  else if ¬ s.apkInstalled then
    (.ok s, [])
  else
    match env.unloadAdbStderr with
    | some stderr =>
      if ¬ tcpPortNotFoundFullmatch stderr then
        (.error (.adbError stderr), [.unloadSnippet])
      else
        stopDelattr s [.unloadSnippet]
    | none =>
      stopDelattr { s with clientLoaded := false } [.unloadSnippet]

theorem getKey_setKey_self (d : Dict) (k : String) (v : SelVal) :
    getKey (setKey d k v) k = some v := by
  induction d with
  | nil => simp [setKey, getKey]
  | cons hd tl ih =>
    obtain ⟨k', v'⟩ := hd
    by_cases h : k' = k
    · simp [setKey, getKey, h]
    · simp [setKey, getKey, h, ih]

theorem getKey_setKey_ne (d : Dict) (k k' : String) (v : SelVal) (h : k' ≠ k) :
    getKey (setKey d k v) k' = getKey d k' := by
  induction d with
  | nil => simp [setKey, getKey, Ne.symm h]
  | cons hd tl ih =>
    obtain ⟨k₀, v₀⟩ := hd
    by_cases hk : k₀ = k
    · subst hk
      simp [setKey, getKey, h, Ne.symm h]
    · simp [setKey, getKey, hk, ih]

theorem setKey_setKey_self (d : Dict) (k : String) (v v' : SelVal) :
    setKey (setKey d k v) k v' = setKey d k v' := by
  induction d with
  | nil => simp [setKey]
  | cons hd tl ih =>
    obtain ⟨k₀, v₀⟩ := hd
    by_cases hk : k₀ = k
    · simp [setKey, hk]
    · simp [setKey, hk, ih]

theorem setKey_getKey_self (d : Dict) (q : String) (v : SelVal)
    (h : getKey d q = some v) : setKey d q v = d := by
  induction d with
  | nil => simp [getKey] at h
  | cons hd tl ih =>
    obtain ⟨k₀, v₀⟩ := hd
    by_cases hk : k₀ = q
    · subst hk
      simp [getKey] at h
      simp [setKey, h]
    · simp [getKey, hk] at h
      simp [setKey, hk, ih h]

theorem replaceAt_bot (d : Dict) (p : List String) (bot : Dict)
    (hp : getDictAt d p = some bot) : replaceAt d p bot = d := by
  induction p generalizing d with
  | nil =>
    simp [getDictAt] at hp
    simp [replaceAt, hp]
  | cons q qs ih =>
    simp only [getDictAt] at hp
    cases hg : getKey d q with
    | none => rw [hg] at hp; simp at hp
    | some v =>
      cases v with
      | dict sub =>
        rw [hg] at hp
        simp only [] at hp
        simp only [replaceAt, hg, ih sub hp]
        exact setKey_getKey_self d q (SelVal.dict sub) hg
      | b x => rw [hg] at hp; simp at hp
      | i x => rw [hg] at hp; simp at hp
      | s x => rw [hg] at hp; simp at hp

theorem setKeyAt_eq_replaceAt (d : Dict) (p : List String) (bot : Dict)
    (n : String) (v : SelVal) (hp : getDictAt d p = some bot) :
    setKeyAt d p n v = replaceAt d p (setKey bot n v) := by
  induction p generalizing d with
  | nil =>
    simp [getDictAt] at hp
    simp [setKeyAt, replaceAt, hp]
  | cons q qs ih =>
    simp only [getDictAt] at hp
    cases hg : getKey d q with
    | none => rw [hg] at hp; simp at hp
    | some v' =>
      cases v' with
      | dict sub =>
        rw [hg] at hp
        simp only [] at hp
        simp only [setKeyAt, replaceAt, hg, ih sub hp]
      | b x => rw [hg] at hp; simp at hp
      | i x => rw [hg] at hp; simp at hp
      | s x => rw [hg] at hp; simp at hp

theorem getDictAt_graft (d : Dict) (p : List String) (bot : Dict)
    (n : String) (k : Dict) (hp : getDictAt d p = some bot) :
    getDictAt (replaceAt d p (setKey bot n (SelVal.dict k))) (p ++ [n]) = some k := by
  induction p generalizing d with
  | nil =>
    simp [getDictAt] at hp
    subst hp
    simp [replaceAt, getDictAt, getKey_setKey_self]
  | cons q qs ih =>
    simp only [getDictAt] at hp
    cases hg : getKey d q with
    | none => rw [hg] at hp; simp at hp
    | some v =>
      cases v with
      | dict sub =>
        rw [hg] at hp
        simp only [] at hp
        simp only [replaceAt, hg, List.cons_append, getDictAt, getKey_setKey_self]
        exact ih sub hp
      | b x => rw [hg] at hp; simp at hp
      | i x => rw [hg] at hp; simp at hp
      | s x => rw [hg] at hp; simp at hp

theorem replaceAt_graft (d : Dict) (p : List String) (bot : Dict)
    (n : String) (k nd : Dict) (hp : getDictAt d p = some bot) :
    replaceAt (replaceAt d p (setKey bot n (SelVal.dict k))) (p ++ [n]) nd
      = replaceAt d p (setKey bot n (SelVal.dict nd)) := by
  induction p generalizing d with
  | nil =>
    simp [getDictAt] at hp
    subst hp
    simp [replaceAt, getKey_setKey_self, setKey_setKey_self]
  | cons q qs ih =>
    simp only [getDictAt] at hp
    cases hg : getKey d q with
    | none => rw [hg] at hp; simp at hp
    | some v =>
      cases v with
      | dict sub =>
        rw [hg] at hp
        simp only [] at hp
        simp only [replaceAt, hg, List.cons_append, getKey_setKey_self,
          setKey_setKey_self]
        exact congrArg (fun z => setKey d q (SelVal.dict z)) (ih sub hp)
      | b x => rw [hg] at hp; simp at hp
      | i x => rw [hg] at hp; simp at hp
      | s x => rw [hg] at hp; simp at hp

theorem appendAll_ok (apps : List (String × Dict))
    (h : ∀ a ∈ apps, validAppend a.1 a.2)
    (d : Dict) (p : List String) (bot : Dict) (hp : getDictAt d p = some bot) :
    appendAll ⟨d, p⟩ apps
      = (none, ⟨replaceAt d p (nestSpec bot apps), p ++ apps.map Prod.fst⟩) := by
  induction apps generalizing d p bot with
  | nil =>
    simp [appendAll, nestSpec, replaceAt_bot d p bot hp]
  | cons a rest ih =>
    obtain ⟨n, k⟩ := a
    obtain ⟨hn, hkeys⟩ := h (n, k) (List.mem_cons_self _ _)
    have hnosub : ¬ ∃ kv ∈ k, kv.1 ∈ SUBSELECTOR := by
      rintro ⟨kv, hm, hs⟩
      exact hkeys kv hm hs
    have happ : BySelector.append ⟨d, p⟩ n k
        = (none, ⟨setKeyAt d p n (SelVal.dict k), p ++ [n]⟩) := by
      simp only [BySelector.append]
      rw [if_neg (not_not_intro hn), if_neg hnosub]
    rw [appendAll, happ]
    simp only []
    rw [setKeyAt_eq_replaceAt d p bot n (SelVal.dict k) hp]
    rw [ih (fun a ha => h a (List.mem_cons_of_mem _ ha))
      (replaceAt d p (setKey bot n (SelVal.dict k))) (p ++ [n]) k
      (getDictAt_graft d p bot n k hp)]
    rw [replaceAt_graft d p bot n k (nestSpec k rest) hp]
    simp [nestSpec, List.append_assoc]

/-- C2: for a `BySelector` built from `k0` and extended by successive
successful `append (nᵢ, kᵢ)` calls, `to_dict` returns `k0` extended with an
entry `n₁` whose value is `k₁` extended with an entry `n₂`, and so on — each
appended sub-selector nested exactly one level deeper, in append order — and
no top-level key of `k0` other than one equal to `n₁` is removed or
overwritten. -/
theorem byselector_append_nesting (k0 : Dict) (apps : List (String × Dict))
    (h : ∀ a ∈ apps, validAppend a.1 a.2) :
    (appendAll (BySelector.init k0) apps).1 = none ∧
    ((appendAll (BySelector.init k0) apps).2).to_dict = nestSpec k0 apps ∧
    ∀ n1 k1 rest, apps = (n1, k1) :: rest →
      ∀ key, key ≠ n1 →
        getKey ((appendAll (BySelector.init k0) apps).2).to_dict key
          = getKey k0 key := by
  have base := appendAll_ok apps h k0 [] k0 rfl
  have hinit : BySelector.init k0 = ⟨k0, []⟩ := rfl
  rw [hinit, base]
  refine ⟨rfl, by simp [BySelector.to_dict, replaceAt], ?_⟩
  rintro n1 k1 rest rfl key hkey
  simp only [BySelector.to_dict, replaceAt, nestSpec]
  exact getKey_setKey_ne k0 n1 key (SelVal.dict (nestSpec k1 rest)) hkey

theorem byselector_append_nesting_witness :
    (∀ a ∈ [("child", [("clickable", SelVal.b true)]),
            ("sibling", [("depth", SelVal.i 2)])],
        validAppend a.1 a.2) ∧
    ((appendAll (BySelector.init [("text", SelVal.s "OK")])
        [("child", [("clickable", SelVal.b true)]),
         ("sibling", [("depth", SelVal.i 2)])]).2).to_dict
      = [("text", SelVal.s "OK"),
         ("child", SelVal.dict
            [("clickable", SelVal.b true),
             ("sibling", SelVal.dict [("depth", SelVal.i 2)])])] ∧
    getKey ((appendAll (BySelector.init [("text", SelVal.s "OK")])
        [("child", [("clickable", SelVal.b true)]),
         ("sibling", [("depth", SelVal.i 2)])]).2).to_dict "text"
      = some (SelVal.s "OK") := by
  have h := byselector_append_nesting [("text", SelVal.s "OK")]
    [("child", [("clickable", SelVal.b true)]),
     ("sibling", [("depth", SelVal.i 2)])] (by decide)
  refine ⟨by decide, ?_, ?_⟩
  · rw [h.2.1]
    rfl
  · rw [h.2.2 "child" [("clickable", SelVal.b true)]
      [("sibling", [("depth", SelVal.i 2)])] rfl "text" (by decide)]
    rfl

/-- C8: `BySelector.append(name, **kwargs)` raises `SelectorError` exactly
when `name` is not one of the seven sub-selector keys or some keyword key is
itself a sub-selector key, and whenever it raises the selector state
(dictionary and nesting bottom) is unchanged. -/
theorem byselector_append_error_iff (b : BySelector) (name : String)
    (kwargs : Dict) :
    ((b.append name kwargs).1.isSome ↔
      (name ∉ SUBSELECTOR ∨ ∃ key ∈ kwargs.map Prod.fst, key ∈ SUBSELECTOR)) ∧
    ((b.append name kwargs).1.isSome → (b.append name kwargs).2 = b) := by
  by_cases hn : name ∈ SUBSELECTOR
  · by_cases hk : ∃ kv ∈ kwargs, kv.1 ∈ SUBSELECTOR
    · have : (b.append name kwargs)
          = (some SelectorError.basicSelectorContainsSub, b) := by
        simp only [BySelector.append]
        rw [if_neg (not_not_intro hn), if_pos hk]
      rw [this]
      constructor
      · simp only [Option.isSome_some, true_iff]
        right
        obtain ⟨kv, hm, hs⟩ := hk
        exact ⟨kv.1, List.mem_map_of_mem Prod.fst hm, hs⟩
      · intro
        rfl
    · have : (b.append name kwargs)
          = (none,
              ⟨setKeyAt b.selector b.bottomPath name (SelVal.dict kwargs),
                b.bottomPath ++ [name]⟩) := by
        simp only [BySelector.append]
        rw [if_neg (not_not_intro hn), if_neg hk]
      rw [this]
      constructor
      · simp only [Option.isSome_none, Bool.false_eq_true, false_iff]
        rintro (hc | ⟨key, hkm, hks⟩)
        · exact hc hn
        · obtain ⟨kv, hkv, rfl⟩ := List.mem_map.mp hkm
          exact hk ⟨kv, hkv, hks⟩
      · intro hc
        simp at hc
  · have : (b.append name kwargs)
        = (some (SelectorError.unexpectedSelectorType name), b) := by
      simp only [BySelector.append]
      rw [if_pos hn]
    rw [this]
    exact ⟨by simp [hn], fun _ => rfl⟩

theorem byselector_append_error_iff_witness :
    (((BySelector.init []).append "chil" []).1.isSome = true) ∧
    ((BySelector.init []).append "chil" []).2 = BySelector.init [] := by
  have h := byselector_append_error_iff (BySelector.init []) "chil" []
  have hs : (((BySelector.init []).append "chil" []).1.isSome
      ↔ True) := by
    rw [h.1]
    simp only [iff_true]
    left
    decide
  refine ⟨by simpa using hs.mpr trivial, h.2 (by simpa using hs.mpr trivial)⟩

/-- C1: `send_rpc_request` first attempts the parent call; on success that
result is returned with no reconnection. On a `ProtocolError`, or on a
snippet `Error` containing `'socket error'`, it restarts the connection and
retries the parent call exactly once, returning the retry's outcome. A
snippet `Error` without `'socket error'` propagates unchanged with no
reconnection and no retry. -/
theorem send_rpc_request_retry (parent : ParentRpc) :
    (∀ v, parent 0 = .ok v →
      send_rpc_request parent = ⟨.ok v, false, 1⟩) ∧
    (∀ m, parent 0 = .error (PyExc.protocolError m) →
      send_rpc_request parent = ⟨parent 1, true, 2⟩) ∧
    (∀ m, parent 0 = .error (PyExc.snippetError m) →
      strContains m "socket error" →
      send_rpc_request parent = ⟨parent 1, true, 2⟩) ∧
    (∀ m, parent 0 = .error (PyExc.snippetError m) →
      ¬ strContains m "socket error" →
      send_rpc_request parent = ⟨.error (PyExc.snippetError m), false, 1⟩) := by
  refine ⟨?_, ?_, ?_, ?_⟩
  · intro v h
    simp [send_rpc_request, h]
  · intro m h
    simp [send_rpc_request, h]
  · intro m h hsock
    simp [send_rpc_request, h, hsock]
  · intro m h hsock
    simp [send_rpc_request, h, hsock]

theorem send_rpc_request_retry_witness :
    send_rpc_request (fun n => if n = 0
        then Except.error (PyExc.snippetError "Error: socket error on send")
        else Except.ok "pong")
      = ⟨Except.ok "pong", true, 2⟩ := by
  have h := (send_rpc_request_retry (fun n => if n = 0
      then Except.error (PyExc.snippetError "Error: socket error on send")
      else Except.ok "pong")).2.2.1 "Error: socket error on send" rfl
      (by decide)
  rw [h]
  simp

/-- Ports returned by the `_list_occupied_adb_ports` loop are exactly the
`int(tokens[1])` of the lines whose split on `' tcp:'` has exactly three
tokens. -/
theorem listOccupiedAdbPortsGo_mem (lines : List String) (ports : List Int)
    (hok : listOccupiedAdbPortsGo lines = .ok ports) (p : Int) :
    p ∈ ports ↔
      ∃ line ∈ lines, (pySplit line " tcp:").length = 3 ∧
        pyInt ((pySplit line " tcp:").getD 1 "") = some p := by
  induction lines generalizing ports with
  | nil =>
    simp only [listOccupiedAdbPortsGo] at hok
    obtain rfl : ([] : List Int) = ports := by
      simpa using hok
    simp
  | cons line rest ih =>
    simp only [listOccupiedAdbPortsGo] at hok
    by_cases hlen : (pySplit line " tcp:").length = 3
    · rw [if_neg (not_not_intro hlen)] at hok
      cases hparse : pyInt ((pySplit line " tcp:").getD 1 "") with
      | none => rw [hparse] at hok; simp at hok
      | some p0 =>
        rw [hparse] at hok
        cases hrest : listOccupiedAdbPortsGo rest with
        | error e => rw [hrest] at hok; simp at hok
        | ok ps =>
          rw [hrest] at hok
          simp only [] at hok
          obtain rfl : p0 :: ps = ports := by simpa using hok
          constructor
          · intro hmem
            rcases List.mem_cons.mp hmem with rfl | hmem'
            · exact ⟨line, List.mem_cons_self _ _, hlen, hparse⟩
            · obtain ⟨l, hl, h3, hp⟩ := (ih ps hrest).mp hmem'
              exact ⟨l, List.mem_cons_of_mem _ hl, h3, hp⟩
          · rintro ⟨l, hl, h3, hp⟩
            rcases List.mem_cons.mp hl with rfl | hl'
            · rw [hparse] at hp
              rw [List.mem_cons]
              left
              exact (Option.some_inj.mp hp).symm
            · exact List.mem_cons_of_mem _ ((ih ps hrest).mpr ⟨l, hl', h3, hp⟩)
    · rw [if_pos hlen] at hok
      constructor
      · intro hmem
        obtain ⟨l, hl, h3, hp⟩ := (ih ports hok).mp hmem
        exact ⟨l, List.mem_cons_of_mem _ hl, h3, hp⟩
      · rintro ⟨l, hl, h3, hp⟩
        rcases List.mem_cons.mp hl with rfl | hl'
        · exact absurd h3 hlen
        · exact (ih ports hok).mpr ⟨l, hl', h3, hp⟩

/-- C3: `_restart_snippet_connection` performs, in order: `close_connection`
iff the host port is among the ports parsed from `adb forward --list`
(ports coming only from lines splitting into exactly three tokens on
`' tcp:'`), then unconditionally `pm clear` with the user args and the
package, then `start_server`, then `make_connection`. -/
theorem restart_snippet_connection_spec (hostPort : Int) (out : String)
    (userArgs : List String) (package : String) (ports : List Int)
    (hok : listOccupiedAdbPorts out = .ok ports) :
    restart_snippet_connection hostPort out userArgs package
      = .ok ((if hostPort ∈ ports then [RestartAction.closeConnection] else [])
          ++ [RestartAction.shell (["pm", "clear"] ++ userArgs ++ [package]),
              RestartAction.startServer, RestartAction.makeConnection]) ∧
    (hostPort ∈ ports ↔
      ∃ line ∈ pySplit (pyStrip out) "\n", (pySplit line " tcp:").length = 3 ∧
        pyInt ((pySplit line " tcp:").getD 1 "") = some hostPort) := by
  constructor
  · simp [restart_snippet_connection, hok]
  · exact listOccupiedAdbPortsGo_mem _ _ hok hostPort

theorem restart_snippet_connection_spec_witness :
    restart_snippet_connection 6790 "localhost:46231 tcp:6790 tcp:6790"
        ["--user", "10"] "com.google.android.mobly.snippet.uiautomator"
      = .ok [RestartAction.closeConnection,
          RestartAction.shell ["pm", "clear", "--user", "10",
            "com.google.android.mobly.snippet.uiautomator"],
          RestartAction.startServer, RestartAction.makeConnection] := by
  have h := (restart_snippet_connection_spec 6790
      "localhost:46231 tcp:6790 tcp:6790" ["--user", "10"]
      "com.google.android.mobly.snippet.uiautomator" [6790] rfl).1
  rw [h]
  rfl

/-- C4: `_Click.__call__(t)` makes exactly one RPC call — `clickObj` with
the selector dictionary and, only when a timeout is given, the timeout
converted to integer milliseconds — and returns exactly that call's
result, with no caching, retry, or transformation. -/
theorem click_call_forwards (rpc : RpcCall → Bool) (s : BySelector)
    (t : Option TimeUnit) :
    (click_call rpc s t).2
        = [⟨"clickObj", RpcArg.dict s.to_dict ::
            (match t with
             | none => []
             | some tu => [RpcArg.int (covert_to_millisecond tu)])⟩] ∧
    (click_call rpc s t).1
        = rpc ⟨"clickObj", RpcArg.dict s.to_dict ::
            (match t with
             | none => []
             | some tu => [RpcArg.int (covert_to_millisecond tu)])⟩ := by
  cases t <;> simp [click_call]

/-- C9: `_Drag.to` succeeds exactly when either both coordinates are given
with no search criteria (one `dragObj` RPC with selector, x, y, speed) or
both are absent with criteria given (one `dragObjToObj` RPC with source
selector, destination selector built from the criteria, and speed); any
other combination raises `ApiError` and makes no RPC call. -/
theorem drag_to_spec (rpc : RpcCall → Bool) (sel : BySelector)
    (x y speed : Option Int) (kwargs : Dict) :
    ((drag_to rpc sel x y speed kwargs).1 = Except.error dragErrMsg ↔
      ¬ ((x ≠ none ∧ y ≠ none ∧ kwargs.isEmpty) ∨
         (x = none ∧ y = none ∧ ¬ kwargs.isEmpty))) ∧
    (∀ xv yv, x = some xv → y = some yv → kwargs.isEmpty →
      drag_to rpc sel x y speed kwargs
        = (Except.ok (rpc ⟨"dragObj",
            [RpcArg.dict sel.to_dict, RpcArg.int xv, RpcArg.int yv,
             RpcArg.optInt speed]⟩),
           [⟨"dragObj",
            [RpcArg.dict sel.to_dict, RpcArg.int xv, RpcArg.int yv,
             RpcArg.optInt speed]⟩])) ∧
    (x = none → y = none → ¬ kwargs.isEmpty →
      drag_to rpc sel x y speed kwargs
        = (Except.ok (rpc ⟨"dragObjToObj",
            [RpcArg.dict sel.to_dict,
             RpcArg.dict (BySelector.init kwargs).to_dict,
             RpcArg.optInt speed]⟩),
           [⟨"dragObjToObj",
            [RpcArg.dict sel.to_dict,
             RpcArg.dict (BySelector.init kwargs).to_dict,
             RpcArg.optInt speed]⟩])) ∧
    ((drag_to rpc sel x y speed kwargs).1 = Except.error dragErrMsg →
      (drag_to rpc sel x y speed kwargs).2 = []) := by
  by_cases h1 : x = none ∧ y = none ∧ ¬ kwargs.isEmpty
  · have hd : drag_to rpc sel x y speed kwargs
        = (Except.ok (rpc ⟨"dragObjToObj",
            [RpcArg.dict sel.to_dict,
             RpcArg.dict (BySelector.init kwargs).to_dict,
             RpcArg.optInt speed]⟩),
           [⟨"dragObjToObj",
            [RpcArg.dict sel.to_dict,
             RpcArg.dict (BySelector.init kwargs).to_dict,
             RpcArg.optInt speed]⟩]) := by
      simp only [drag_to, if_pos h1]
    refine ⟨?_, ?_, ?_, ?_⟩
    · rw [hd]
      simp only [not_or]
      constructor
      · intro hc
        simp at hc
      · intro hc
        exact absurd h1 hc.2
    · intro xv yv hx
      rw [h1.1] at hx
      simp at hx
    · intro _ _ _
      exact hd
    · intro hc
      rw [hd] at hc
      simp at hc
  · by_cases h2 : x ≠ none ∧ y ≠ none ∧ kwargs.isEmpty
    · have hd : drag_to rpc sel x y speed kwargs
          = (Except.ok (rpc ⟨"dragObj",
              [RpcArg.dict sel.to_dict,
               RpcArg.int (x.get (Option.ne_none_iff_isSome.mp h2.1)),
               RpcArg.int (y.get (Option.ne_none_iff_isSome.mp h2.2.1)),
               RpcArg.optInt speed]⟩),
             [⟨"dragObj",
              [RpcArg.dict sel.to_dict,
               RpcArg.int (x.get (Option.ne_none_iff_isSome.mp h2.1)),
               RpcArg.int (y.get (Option.ne_none_iff_isSome.mp h2.2.1)),
               RpcArg.optInt speed]⟩]) := by
        simp only [drag_to, if_neg h1]
        rw [dif_pos h2]
      refine ⟨?_, ?_, ?_, ?_⟩
      · rw [hd]
        constructor
        · intro hc
          simp at hc
        · intro hc
          exact absurd (Or.inl h2) hc
      · rintro xv yv rfl rfl _
        rw [hd]
        simp
      · intro hx
        exact absurd (hx ▸ h2.1) (fun hc => hc rfl)
      · intro hc
        rw [hd] at hc
        simp at hc
    · have hd : drag_to rpc sel x y speed kwargs
          = (Except.error dragErrMsg, []) := by
        simp only [drag_to, if_neg h1]
        rw [dif_neg h2]
      refine ⟨?_, ?_, ?_, ?_⟩
      · rw [hd]
        simp only [true_iff]
        rintro (hc | hc)
        · exact h2 hc
        · exact h1 hc
      · rintro xv yv rfl rfl hk
        exact absurd ⟨fun hc => by simp at hc, fun hc => by simp at hc, hk⟩ h2
      · rintro rfl rfl hk
        exact absurd ⟨rfl, rfl, hk⟩ h1
      · intro _
        rw [hd]

theorem drag_to_spec_witness :
    drag_to (fun _ => true) (BySelector.init []) (some 3) (some 4) none []
      = (Except.ok true,
         [⟨"dragObj",
          [RpcArg.dict (BySelector.init []).to_dict, RpcArg.int 3,
           RpcArg.int 4, RpcArg.optInt none]⟩]) := by
  exact (drag_to_spec (fun _ => true) (BySelector.init [])
    (some 3) (some 4) none []).2.1 3 4 rfl rfl (by decide)

theorem none_or_eq (o : Option Int) : Option.or none o = o := rfl

theorem or_none_eq (o : Option Int) : Option.or o none = o := by
  cases o <;> rfl

theorem lookup_append (k : String) (l1 l2 : List (String × Int)) :
    (l1 ++ l2).lookup k = ((l1.lookup k).or (l2.lookup k)) := by
  induction l1 with
  | nil => simp [List.lookup]
  | cons a l ih =>
    obtain ⟨k', v⟩ := a
    by_cases h : k = k'
    · simp [List.lookup, h]
    · have hb : (k == k') = false := beq_eq_false_iff_ne.mpr h
      simp [List.lookup, hb, ih]

theorem lookup_optEntry_self (k : String) (o : Option ℚ) :
    (optEntry k o).lookup k
      = o.map (fun q => covert_to_millisecond (TimeUnit.timedelta q)) := by
  cases o <;> simp [optEntry, List.lookup]

theorem lookup_optEntry_ne (k k' : String) (o : Option ℚ) (h : k' ≠ k) :
    (optEntry k o).lookup k' = none := by
  have hb : (k' == k) = false := beq_eq_false_iff_ne.mpr h
  cases o <;> simp [optEntry, List.lookup, hb]

theorem lookup_toolTypeEntries_self (o : Option ToolType) :
    (toolTypeEntries o).lookup "toolType"
      = o.map (fun t => (t.val : Int)) := by
  cases o <;> simp [toolTypeEntries, List.lookup]

theorem lookup_toolTypeEntries_ne (k : String) (o : Option ToolType)
    (h : k ≠ "toolType") : (toolTypeEntries o).lookup k = none := by
  have hb : (k == "toolType") = false := beq_eq_false_iff_ne.mpr h
  cases o <;> simp [toolTypeEntries, List.lookup, hb]

theorem lookup_flagsEntries_nil (k : String) :
    (flagsEntries []).lookup k = none := rfl

theorem lookup_flagsEntries_self (l : List Flag) (h : l ≠ []) :
    (flagsEntries l).lookup "uiAutomationFlags" = some ((orFlags l : Nat) : Int) := by
  match l with
  | [] => exact absurd rfl h
  | [f] => simp [flagsEntries, List.lookup, orFlags]
  | f :: g :: rest => simp [flagsEntries, List.lookup]

theorem lookup_flagsEntries_ne (k : String) (l : List Flag)
    (h : k ≠ "uiAutomationFlags") : (flagsEntries l).lookup k = none := by
  have hb : (k == "uiAutomationFlags") = false := beq_eq_false_iff_ne.mpr h
  match l with
  | [] => rfl
  | [f] => simp [flagsEntries, List.lookup, hb]
  | f :: g :: rest => simp [flagsEntries, List.lookup, hb]

theorem orFlags_eq_spec (l : List Flag) : orFlags l = orFlagsSpec l := by
  cases l with
  | nil => rfl
  | cons f fs => simp [orFlags, orFlagsSpec, Nat.zero_or]

theorem lookup_timeout_tail_none (k : String) (ka aa sa wi ws : Option ℚ)
    (h1 : k ≠ "actionAcknowledgmentTimeout") (h2 : k ≠ "keyInjectionDelay")
    (h3 : k ≠ "scrollAcknowledgmentTimeout") (h4 : k ≠ "waitForIdleTimeout")
    (h5 : k ≠ "waitForSelectorTimeout") :
    (optEntry "actionAcknowledgmentTimeout" aa
      ++ (optEntry "keyInjectionDelay" ka
      ++ (optEntry "scrollAcknowledgmentTimeout" sa
      ++ (optEntry "waitForIdleTimeout" wi
      ++ optEntry "waitForSelectorTimeout" ws)))).lookup k = none := by
  rw [lookup_append, lookup_optEntry_ne _ _ _ h1, none_or_eq,
    lookup_append, lookup_optEntry_ne _ _ _ h2, none_or_eq,
    lookup_append, lookup_optEntry_ne _ _ _ h3, none_or_eq,
    lookup_append, lookup_optEntry_ne _ _ _ h4, none_or_eq,
    lookup_optEntry_ne _ _ _ h5]

/-- C10: `Configurator.to_dict` contains `uiAutomationFlags` iff `flags` is
non-empty (value: bitwise OR of all flag values), `toolType` iff
`tool_type` is set, and each timeout key iff the corresponding field is not
`None`, with the value in truncated whole milliseconds; the default
`Configurator` yields exactly `{'waitForSelectorTimeout': 0}`. -/
theorem configurator_to_dict_spec (c : Configurator) :
    ((c.flags = [] →
        (Configurator.to_dict c).lookup "uiAutomationFlags" = none) ∧
     (c.flags ≠ [] →
        (Configurator.to_dict c).lookup "uiAutomationFlags"
          = some ((orFlagsSpec c.flags : Nat) : Int))) ∧
    (Configurator.to_dict c).lookup "toolType"
      = c.tool_type.map (fun t => (t.val : Int)) ∧
    (Configurator.to_dict c).lookup "actionAcknowledgmentTimeout"
      = c.timeout.action_acknowledgment.map
          (fun q => covert_to_millisecond (TimeUnit.timedelta q)) ∧
    (Configurator.to_dict c).lookup "keyInjectionDelay"
      = c.timeout.key_injection_delay.map
          (fun q => covert_to_millisecond (TimeUnit.timedelta q)) ∧
    (Configurator.to_dict c).lookup "scrollAcknowledgmentTimeout"
      = c.timeout.scroll_acknowledgment.map
          (fun q => covert_to_millisecond (TimeUnit.timedelta q)) ∧
    (Configurator.to_dict c).lookup "waitForIdleTimeout"
      = c.timeout.wait_for_idle.map
          (fun q => covert_to_millisecond (TimeUnit.timedelta q)) ∧
    (Configurator.to_dict c).lookup "waitForSelectorTimeout"
      = c.timeout.wait_for_selector.map
          (fun q => covert_to_millisecond (TimeUnit.timedelta q)) ∧
    Configurator.to_dict {} = [("waitForSelectorTimeout", 0)] := by
  obtain ⟨fl, tmo, tt⟩ := c
  obtain ⟨ka, aa, sa, wi, ws⟩ := tmo
  have e : Configurator.to_dict ⟨fl, ⟨ka, aa, sa, wi, ws⟩, tt⟩
      = toolTypeEntries tt ++ (flagsEntries fl
        ++ (optEntry "actionAcknowledgmentTimeout" aa
        ++ (optEntry "keyInjectionDelay" ka
        ++ (optEntry "scrollAcknowledgmentTimeout" sa
        ++ (optEntry "waitForIdleTimeout" wi
        ++ optEntry "waitForSelectorTimeout" ws))))) := by
    simp [Configurator.to_dict, List.append_assoc]
  refine ⟨⟨?_, ?_⟩, ?_, ?_, ?_, ?_, ?_, ?_, ?_⟩
  · rintro rfl
    rw [e, lookup_append, lookup_toolTypeEntries_ne _ _ (by decide), none_or_eq,
      lookup_append, lookup_flagsEntries_nil, none_or_eq,
      lookup_timeout_tail_none _ _ _ _ _ _ (by decide) (by decide) (by decide)
        (by decide) (by decide)]
  · intro h
    rw [e, lookup_append, lookup_toolTypeEntries_ne _ _ (by decide), none_or_eq,
      lookup_append, lookup_flagsEntries_self fl h,
      lookup_timeout_tail_none _ _ _ _ _ _ (by decide) (by decide) (by decide)
        (by decide) (by decide), or_none_eq, orFlags_eq_spec]
  · rw [e, lookup_append, lookup_toolTypeEntries_self,
      lookup_append, lookup_flagsEntries_ne _ _ (by decide), none_or_eq,
      lookup_timeout_tail_none _ _ _ _ _ _ (by decide) (by decide) (by decide)
        (by decide) (by decide), or_none_eq]
  · rw [e, lookup_append, lookup_toolTypeEntries_ne _ _ (by decide), none_or_eq,
      lookup_append, lookup_flagsEntries_ne _ _ (by decide), none_or_eq,
      lookup_append, lookup_optEntry_self,
      lookup_append, lookup_optEntry_ne _ _ _ (by decide), none_or_eq,
      lookup_append, lookup_optEntry_ne _ _ _ (by decide), none_or_eq,
      lookup_append, lookup_optEntry_ne _ _ _ (by decide), none_or_eq,
      lookup_optEntry_ne _ _ _ (by decide), or_none_eq]
  · rw [e, lookup_append, lookup_toolTypeEntries_ne _ _ (by decide), none_or_eq,
      lookup_append, lookup_flagsEntries_ne _ _ (by decide), none_or_eq,
      lookup_append, lookup_optEntry_ne _ _ _ (by decide), none_or_eq,
      lookup_append, lookup_optEntry_self,
      lookup_append, lookup_optEntry_ne _ _ _ (by decide), none_or_eq,
      lookup_append, lookup_optEntry_ne _ _ _ (by decide), none_or_eq,
      lookup_optEntry_ne _ _ _ (by decide), or_none_eq]
  · rw [e, lookup_append, lookup_toolTypeEntries_ne _ _ (by decide), none_or_eq,
      lookup_append, lookup_flagsEntries_ne _ _ (by decide), none_or_eq,
      lookup_append, lookup_optEntry_ne _ _ _ (by decide), none_or_eq,
      lookup_append, lookup_optEntry_ne _ _ _ (by decide), none_or_eq,
      lookup_append, lookup_optEntry_self,
      lookup_append, lookup_optEntry_ne _ _ _ (by decide), none_or_eq,
      lookup_optEntry_ne _ _ _ (by decide), or_none_eq]
  · rw [e, lookup_append, lookup_toolTypeEntries_ne _ _ (by decide), none_or_eq,
      lookup_append, lookup_flagsEntries_ne _ _ (by decide), none_or_eq,
      lookup_append, lookup_optEntry_ne _ _ _ (by decide), none_or_eq,
      lookup_append, lookup_optEntry_ne _ _ _ (by decide), none_or_eq,
      lookup_append, lookup_optEntry_ne _ _ _ (by decide), none_or_eq,
      lookup_append, lookup_optEntry_self,
      lookup_optEntry_ne _ _ _ (by decide), or_none_eq]
  · rw [e, lookup_append, lookup_toolTypeEntries_ne _ _ (by decide), none_or_eq,
      lookup_append, lookup_flagsEntries_ne _ _ (by decide), none_or_eq,
      lookup_append, lookup_optEntry_ne _ _ _ (by decide), none_or_eq,
      lookup_append, lookup_optEntry_ne _ _ _ (by decide), none_or_eq,
      lookup_append, lookup_optEntry_ne _ _ _ (by decide), none_or_eq,
      lookup_append, lookup_optEntry_ne _ _ _ (by decide), none_or_eq,
      lookup_optEntry_self]
  · norm_num [Configurator.to_dict, toolTypeEntries, flagsEntries, optEntry,
      covert_to_millisecond, intTrunc]

theorem configurator_to_dict_spec_witness :
    (([Flag.FLAG_DONT_SUPPRESS_ACCESSIBILITY_SERVICES,
       Flag.FLAG_DONT_USE_ACCESSIBILITY] : List Flag) ≠ []) ∧
    (Configurator.to_dict
        { flags := [Flag.FLAG_DONT_SUPPRESS_ACCESSIBILITY_SERVICES,
                    Flag.FLAG_DONT_USE_ACCESSIBILITY],
          timeout := { wait_for_idle := some 2 },
          tool_type := some ToolType.TOOL_TYPE_FINGER }).lookup
        "uiAutomationFlags" = some 3 ∧
    (Configurator.to_dict
        { flags := [Flag.FLAG_DONT_SUPPRESS_ACCESSIBILITY_SERVICES,
                    Flag.FLAG_DONT_USE_ACCESSIBILITY],
          timeout := { wait_for_idle := some 2 },
          tool_type := some ToolType.TOOL_TYPE_FINGER }).lookup
        "waitForIdleTimeout" = some 2000 := by
  have h := configurator_to_dict_spec
    { flags := [Flag.FLAG_DONT_SUPPRESS_ACCESSIBILITY_SERVICES,
                Flag.FLAG_DONT_USE_ACCESSIBILITY],
      timeout := { wait_for_idle := some 2 },
      tool_type := some ToolType.TOOL_TYPE_FINGER }
  refine ⟨by decide, ?_, ?_⟩
  · rw [h.1.2 (by decide)]
    rfl
  · rw [h.2.2.2.2.2.1]
    norm_num [covert_to_millisecond, intTrunc]

theorem install_apk_preserves (cfg : SnippetCfg) (s s1 : ServiceState)
    (t1 : List ServiceAction) (h : install_apk cfg s = .ok (s1, t1)) :
    s1.hasPublicAttr = s.hasPublicAttr ∧
    s1.hasSnippetsManager = s.hasSnippetsManager ∧
    s1.clientLoaded = s.clientLoaded ∧
    s1.skip_installing = s.skip_installing := by
  simp only [install_apk] at h
  split at h
  · split at h
    · simp at h
    · obtain ⟨rfl, rfl⟩ : s = s1 ∧ [] = t1 := by simpa using h
      exact ⟨rfl, rfl, rfl, rfl⟩
  · split at h
    · obtain ⟨hs, ht⟩ : { s with apkInstalled := true } = s1 ∧ _ = t1 := by
        simpa using h
      rw [← hs]
      exact ⟨rfl, rfl, rfl, rfl⟩
    · obtain ⟨hs, ht⟩ : { s with apkInstalled := true } = s1 ∧ _ = t1 := by
        simpa using h
      rw [← hs]
      exact ⟨rfl, rfl, rfl, rfl⟩

theorem load_snippet_ok_state (env : ServiceEnv) (cfg : SnippetCfg)
    (s s2 : ServiceState) (t2 : List ServiceAction)
    (hm : s.clientLoaded = true → s.hasSnippetsManager = true)
    (h : load_snippet env cfg s = .ok (s2, t2)) :
    s2.clientLoaded = true ∧ s2.hasSnippetsManager = true ∧
    s2.hasPublicAttr = s.hasPublicAttr ∧
    s2.skip_installing = s.skip_installing := by
  simp only [load_snippet] at h
  split at h
  · next hcl =>
    obtain ⟨rfl, rfl⟩ : s = s2 ∧ [] = t2 := by simpa using h
    exact ⟨by simpa using hcl, hm (by simpa using hcl), rfl, rfl⟩
  · split at h
    · simp at h
    · split at h
      · obtain ⟨hs, ht⟩ :
            { s with clientLoaded := true, hasSnippetsManager := true } = s2
              ∧ _ = t2 := by simpa using h
        rw [← hs]
        exact ⟨rfl, rfl, rfl, rfl⟩
      · split at h <;> simp at h
      · simp at h

/-- C5: `start` is idempotent on the alive state: when `is_alive` holds it
performs no external step and leaves the state unchanged; when it does not,
a successful start runs the APK-installation step, the snippet-loading
step and the UiDevice initialization in that order, sets `skip_installing`
to `True`, and leaves `is_alive` true. -/
theorem uiautomator_service_start_spec (env : ServiceEnv) (cfg : SnippetCfg)
    (s : ServiceState)
    (hm : s.clientLoaded = true → s.hasSnippetsManager = true) :
    (is_alive s = true → service_start env cfg s = (.ok s, [])) ∧
    (is_alive s = false → ∀ s' tr, service_start env cfg s = (.ok s', tr) →
      ∃ s1 t1 s2 t2,
        install_apk cfg s = .ok (s1, t1) ∧
        load_snippet env cfg s1 = .ok (s2, t2) ∧
        s' = { s2 with hasPublicAttr := true, skip_installing := true } ∧
        tr = t1 ++ t2 ++ [.setConfigurator, .setPublicAttr] ∧
        s'.skip_installing = true ∧ s'.hasPublicAttr = true ∧
        is_alive s' = true) := by
  constructor
  · intro ha
    simp [service_start, ha]
  · intro ha s' tr h
    simp only [service_start, ha, Bool.false_eq_true, if_false] at h
    cases hinst : install_apk cfg s with
    | error e =>
      rw [hinst] at h
      dsimp only at h
      simp at h
    | ok p =>
      obtain ⟨s1, t1⟩ := p
      rw [hinst] at h
      dsimp only at h
      cases hload : load_snippet env cfg s1 with
      | error e =>
        rw [hload] at h
        dsimp only at h
        simp at h
      | ok q =>
        obtain ⟨s2, t2⟩ := q
        rw [hload] at h
        dsimp only [initial_uidevice] at h
        have hs' :
            s' = { s2 with hasPublicAttr := true, skip_installing := true } := by
          have hfst := congrArg Prod.fst h
          simp only [] at hfst
          exact (Except.ok.inj hfst).symm
        have htr : tr = t1 ++ t2 ++ [ServiceAction.setConfigurator,
            ServiceAction.setPublicAttr] := by
          have hsnd := congrArg Prod.snd h
          simp only [] at hsnd
          exact hsnd.symm
        have hm1 : s1.clientLoaded = true → s1.hasSnippetsManager = true := by
          obtain ⟨_, h2, h3, _⟩ := install_apk_preserves cfg s s1 t1 hinst
          rw [h2, h3]
          exact hm
        obtain ⟨hcl, hmgr, _, _⟩ :=
          load_snippet_ok_state env cfg s1 s2 t2 hm1 hload
        refine ⟨s1, t1, s2, t2, rfl, hload, hs', htr, ?_, ?_, ?_⟩
        · rw [hs']
        · rw [hs']
        · rw [hs']
          simp [is_alive, hcl, hmgr]

theorem uiautomator_service_start_spec_witness :
    is_alive ⟨false, false, false, true, false⟩ = false ∧
    service_start ⟨.success, false, none⟩ ⟨some "com.pkg", "app.apk"⟩
        ⟨false, false, false, true, false⟩
      = (.ok ⟨true, true, true, true, true⟩,
         [.adbUninstall (some "com.pkg"), .adbInstall ["-g", "app.apk"],
          .loadSnippet, .setConfigurator, .setPublicAttr]) ∧
    is_alive ⟨true, true, true, true, true⟩ = true := by
  refine ⟨by decide, by rfl, ?_⟩
  have h := (uiautomator_service_start_spec ⟨.success, false, none⟩
      ⟨some "com.pkg", "app.apk"⟩ ⟨false, false, false, true, false⟩
      (by decide)).2 (by decide)
      ⟨true, true, true, true, true⟩
      [.adbUninstall (some "com.pkg"), .adbInstall ["-g", "app.apk"],
       .loadSnippet, .setConfigurator, .setPublicAttr] (by rfl)
  obtain ⟨s1, t1, s2, t2, _, _, _, _, _, _, halive⟩ := h
  exact halive

/-- C6: `stop` changes nothing when the service is not alive; returns
without unloading when the snippet package is no longer installed; when it
unloads, an `AdbError` whose stderr fully matches the tcp-port-not-found
pattern is swallowed while any other `AdbError` propagates; and afterwards
the public UiDevice attribute is deleted exactly when present. -/
theorem uiautomator_service_stop_spec (env : ServiceEnv) (s : ServiceState) :
    (is_alive s = false → service_stop env s = (.ok s, [])) ∧
    (is_alive s = true → s.apkInstalled = false →
      service_stop env s = (.ok s, [])) ∧
    (is_alive s = true → s.apkInstalled = true →
      (env.unloadAdbStderr = none →
        service_stop env s
          = (.ok { s with clientLoaded := false, hasPublicAttr := false },
             [.unloadSnippet, .delPublicAttr])) ∧
      (∀ stderr, env.unloadAdbStderr = some stderr →
        (tcpPortNotFoundFullmatch stderr = false →
          service_stop env s
            = (.error (.adbError stderr), [.unloadSnippet])) ∧
        (tcpPortNotFoundFullmatch stderr = true →
          service_stop env s
            = (.ok { s with hasPublicAttr := false },
               [.unloadSnippet, .delPublicAttr])))) := by
  refine ⟨?_, ?_, ?_⟩
  · intro ha
    simp [service_stop, ha]
  · intro ha hak
    simp [service_stop, ha, hak]
  · intro ha hak
    have hpub : s.hasPublicAttr = true := by
      simp only [is_alive, Bool.and_eq_true] at ha
      exact ha.1.1
    constructor
    · intro hu
      simp [service_stop, ha, hak, hu, stopDelattr, hpub]
    · intro stderr hu
      constructor
      · intro hmatch
        simp [service_stop, ha, hak, hu, hmatch]
      · intro hmatch
        simp [service_stop, ha, hak, hu, hmatch, stopDelattr, hpub]

theorem uiautomator_service_stop_spec_witness :
    tcpPortNotFoundFullmatch "adb: error: listener 'tcp:6790' not found\n"
        = true ∧
    service_stop
        ⟨.success, false, some "adb: error: listener 'tcp:6790' not found\n"⟩
        ⟨true, true, true, true, true⟩
      = (.ok ⟨false, true, true, true, true⟩,
         [.unloadSnippet, .delPublicAttr]) := by
  have h := ((uiautomator_service_stop_spec
      ⟨.success, false, some "adb: error: listener 'tcp:6790' not found\n"⟩
      ⟨true, true, true, true, true⟩).2.2 (by decide) (by decide)).2
      "adb: error: listener 'tcp:6790' not found\n" rfl
  exact ⟨by decide, h.2 (by decide)⟩

/-- C7: during a non-skipped start, `skip_installing = True` with the APK
absent raises `ConfigurationError` with no install or uninstall attempted;
`skip_installing = False` with the APK present uninstalls then installs
with `-g`; `skip_installing = False` with the APK absent installs with no
prior uninstall. -/
theorem install_apk_cases (env : ServiceEnv) (cfg : SnippetCfg)
    (s : ServiceState) :
    (s.skip_installing = true → s.apkInstalled = false →
      install_apk cfg s
        = .error (.configurationError
            (errWhenApkNotInstalled cfg.package_name)) ∧
      (is_alive s = false →
        service_start env cfg s
          = (.error (.configurationError
              (errWhenApkNotInstalled cfg.package_name)), []))) ∧
    (s.skip_installing = false → s.apkInstalled = true →
      install_apk cfg s = .ok ({ s with apkInstalled := true },
        [.adbUninstall cfg.package_name,
         .adbInstall ["-g", cfg.file_path]])) ∧
    (s.skip_installing = false → s.apkInstalled = false →
      install_apk cfg s = .ok ({ s with apkInstalled := true },
        [.adbInstall ["-g", cfg.file_path]])) := by
  refine ⟨?_, ?_, ?_⟩
  · intro hsk hak
    have hinst : install_apk cfg s
        = .error (.configurationError
            (errWhenApkNotInstalled cfg.package_name)) := by
      simp [install_apk, hsk, hak]
    refine ⟨hinst, ?_⟩
    intro ha
    simp [service_start, ha, hinst]
  · intro hsk hak
    simp [install_apk, hsk, hak]
  · intro hsk hak
    simp [install_apk, hsk, hak]

theorem install_apk_cases_witness :
    install_apk ⟨some "com.pkg", "app.apk"⟩ ⟨false, false, false, false, true⟩
      = .error (.configurationError
          (errWhenApkNotInstalled (some "com.pkg"))) ∧
    service_start ⟨.success, false, none⟩ ⟨some "com.pkg", "app.apk"⟩
        ⟨false, false, false, false, true⟩
      = (.error (.configurationError
          (errWhenApkNotInstalled (some "com.pkg"))), []) := by
  have h := (install_apk_cases ⟨.success, false, none⟩
      ⟨some "com.pkg", "app.apk"⟩
      ⟨false, false, false, false, true⟩).1 (by decide) (by decide)
  exact ⟨h.1, h.2 (by decide)⟩

end SnippetUiAutomator
